import Mathlib

/-
Verification of the configuration-and-session-lifecycle layer of
PyWebScraping (src/PyWebScraping/webdrivers/FireFox.py) against its
specification, via a shallow embedding in Lean 4.

Conventions of the embedding:
  * Python objects whose identity matters (the selenium `Options`
    objects, the assembler objects passed as constructor defaults) carry
    an explicit allocation id `oid`; fresh allocation is modelled by
    threading a `Nat` counter and handing out the current counter value
    as the new object's id.
  * The selenium `Options` external collaborator is modelled as its
    argument list: `add_argument` appends (selenium performs no
    deduplication).
  * External calls performed by `create_driver` are recorded in an
    explicit event trace, so ordering claims become claims about lists.
  * Python `%`-template substitution (one `%d` or `%s` placeholder) is
    modelled character-by-character by `substD` / `substS`.
  * The base classes `BrowserStartArgs`, `BrowserOptionsManager`,
    `EmptyWebDriver` (PyWebScraping/webdrivers/BaseDriver.py) and
    `WindowRect` (PyWebScraping/utilities.py) are repository code that
    is not available here; their behaviour is modelled from the spec,
    as flagged in the doc comment of each such definition.
-/

namespace PyWebScraping

/-- Substitute `v` for the first occurrence of the placeholder `%d` in a
character list (Python `template % n` for a template holding exactly one
`%d`). -/
def substD (v : List Char) : List Char → List Char
  | [] => []
  | [c] => [c]
  | c1 :: c2 :: rest =>
    if c1 = '%' ∧ c2 = 'd' then v ++ rest
    else c1 :: substD v (c2 :: rest)

/-- Substitute `v` for the first occurrence of the placeholder `%s` in a
character list (Python `template % s` for a template holding exactly one
`%s`). -/
def substS (v : List Char) : List Char → List Char
  | [] => []
  | [c] => [c]
  | c1 :: c2 :: rest =>
    if c1 = '%' ∧ c2 = 's' then v ++ rest
    else c1 :: substS v (c2 :: rest)

/-- Python `template % n` for an integer placeholder `%d`. -/
def pyFormatD (template : String) (n : Int) : String :=
  String.mk (substD (toString n).data template.data)

/-- Python `template % s` for a string placeholder `%s`. -/
def pyFormatS (template : String) (s : String) : String :=
  String.mk (substS s.data template.data)

/-- Python `" ".join`, also used to join command-line fragments with
single spaces. -/
def joinSpace : List String → String
  | [] => ""
  | [s] => s
  | s :: t :: rest => s ++ " " ++ joinSpace (t :: rest)

theorem strExt {a b : String} (h : a.data = b.data) : a = b := by
  cases a
  cases b
  simp_all

theorem dataAppend (a b : String) : (a ++ b).data = a.data ++ b.data := by
  cases a
  cases b
  rfl

/-- Model of the external selenium options object: its list of
command-line arguments, tagged with an allocation id `oid` that models
Python object identity. -/
structure Options where
  oid : Nat
  arguments : List String
deriving DecidableEq, Repr

/-- Selenium `Options.add_argument`: appends the argument to the list;
selenium performs no deduplication. -/
def Options.add_argument (o : Options) (arg : String) : Options :=
  { o with arguments := o.arguments ++ [arg] }

/-- Selenium `Options()`: allocates a fresh, empty options object. -/
def Options.freshNew (ctr : Nat) : Options × Nat :=
  ({ oid := ctr, arguments := [] }, ctr + 1)

/-- Python `str | list[str]` for the proxy configuration value. -/
inductive ProxyArg where
  | str (s : String)
  | list (l : List String)
deriving DecidableEq, Repr

/-- A proxy value joined into a single string (a plain string is already
joined; a list is space-joined like the user agent). -/
def ProxyArg.joined : ProxyArg → String
  | .str s => s
  | .list l => joinSpace l

/-- State of a `FirefoxOptionsManager` (src/PyWebScraping/webdrivers/FireFox.py,
class `FirefoxOptionsManager`): the per-field command templates, the
stored configuration fields, and the selenium options object. -/
structure FirefoxOptionsManager where
  debugging_port_command : String
  user_agent_command : String
  proxy_command : String
  debugging_port : Option Int
  user_agent : Option (List String)
  proxy : Option ProxyArg
  options : Options
deriving DecidableEq, Repr

/-- Modelled from the spec: `BrowserOptionsManager.__init__`
(PyWebScraping/webdrivers/BaseDriver.py, not under src/). Stores the
three command templates and the configuration fields, constructs a new
external options object, and for each present configuration field
substitutes its (joined, for sequence values) value into that field's
template and adds the result as an argument. -/
def BrowserOptionsManager.init (debugging_port_command user_agent_command proxy_command : String)
    (debugging_port : Option Int) (user_agent : Option (List String))
    (proxy : Option ProxyArg) (ctr : Nat) : FirefoxOptionsManager × Nat :=
  let fresh := Options.freshNew ctr
  let o1 := match debugging_port with
    | some p => fresh.1.add_argument (pyFormatD debugging_port_command p)
    | none => fresh.1
  let o2 := match user_agent with
    | some ua => o1.add_argument (pyFormatS user_agent_command (joinSpace ua))
    | none => o1
  let o3 := match proxy with
    | some px => o2.add_argument (pyFormatS proxy_command px.joined)
    | none => o2
  ({ debugging_port_command := debugging_port_command
     user_agent_command := user_agent_command
     proxy_command := proxy_command
     debugging_port := debugging_port
     user_agent := user_agent
     proxy := proxy
     options := o3 }, fresh.2)

/-- `FirefoxOptionsManager.__init__` (src lines 32-49): delegates to the
base constructor with the Firefox templates
`"127.0.0.1:%d"`, `"user-agent=%s"`, `"--proxy-server=%s"`. -/
def FirefoxOptionsManager.init (debugging_port : Option Int)
    (user_agent : Option (List String)) (proxy : Option ProxyArg)
    (ctr : Nat) : FirefoxOptionsManager × Nat :=
  BrowserOptionsManager.init "127.0.0.1:%d" "user-agent=%s" "--proxy-server=%s"
    debugging_port user_agent proxy ctr

/-- The four fixed automation-hiding arguments (src lines 60-63). -/
def hideAutomationArguments : List String :=
  ["--disable-blink-features=AutomationControlled", "--no-first-run",
   "--no-service-autorun", "--password-store=basic"]

/-- `FirefoxOptionsManager.hide_automation` (src lines 51-63): four
`add_argument` calls on the stored options object. -/
def FirefoxOptionsManager.hide_automation (m : FirefoxOptionsManager) : FirefoxOptionsManager :=
  { m with
    options :=
      (((m.options.add_argument "--disable-blink-features=AutomationControlled").add_argument
            "--no-first-run").add_argument
          "--no-service-autorun").add_argument
        "--password-store=basic" }

/-- `FirefoxOptionsManager.renew_webdriver_options` (src lines 65-76):
creates and returns a new `Options()` object; `self` is not touched. -/
def FirefoxOptionsManager.renew_webdriver_options (_m : FirefoxOptionsManager)
    (ctr : Nat) : Options × Nat :=
  Options.freshNew ctr

/-- State of a `FirefoxStartArgs` / `BrowserStartArgs`: the executable
name, the per-field command-line templates, and the stored configuration
fields (src class `FirefoxStartArgs`, attribute list of lines 83-93). -/
structure BrowserStartArgs where
  browser_file_name : String
  debugging_port_command_line : String
  webdriver_dir_command_line : String
  headless_mode_command_line : String
  mute_audio_command_line : String
  webdriver_dir : Option String
  debugging_port : Option Int
  headless_mode : Bool
  mute_audio : Bool
deriving DecidableEq, Repr

/-- Modelled from the spec: the start-command assembly of
`BrowserStartArgs` (PyWebScraping/webdrivers/BaseDriver.py, not under
src/). The executable name comes first and is always present; then for
each present (or true) optional field, in the fixed order debugging
port, profile dir, headless, mute audio, its value is substituted into
that field's template; the fragments are joined with single spaces, and
absent or false fields leave no residue. -/
def BrowserStartArgs.start_command (b : BrowserStartArgs) : String :=
  joinSpace ([b.browser_file_name]
    ++ (match b.debugging_port with
        | some p => [pyFormatD b.debugging_port_command_line p]
        | none => [])
    ++ (match b.webdriver_dir with
        | some d => [pyFormatS b.webdriver_dir_command_line d]
        | none => [])
    ++ (if b.headless_mode then [b.headless_mode_command_line] else [])
    ++ (if b.mute_audio then [b.mute_audio_command_line] else []))

/-- `FirefoxStartArgs.__init__` (src lines 99-128): delegates to the base
constructor with executable name `"firefox.exe"` and the Firefox
templates `"--remote-debugging-port %d"`, `--profile "%s"`,
`"--headless"`, `"--mute-audio"`. -/
def FirefoxStartArgs.init (webdriver_dir : Option String) (debugging_port : Option Int)
    (headless_mode : Bool) (mute_audio : Bool) : BrowserStartArgs :=
  { browser_file_name := "firefox.exe"
    debugging_port_command_line := "--remote-debugging-port %d"
    webdriver_dir_command_line := "--profile \"%s\""
    headless_mode_command_line := "--headless"
    mute_audio_command_line := "--mute-audio"
    webdriver_dir := webdriver_dir
    debugging_port := debugging_port
    headless_mode := headless_mode
    mute_audio := mute_audio }

/-- Modelled from the spec: `WindowRect` (PyWebScraping/utilities.py,
not under src/) — the immutable window position/size value object
{x, y, width, height}. -/
structure WindowRect where
  x : Int
  y : Int
  width : Int
  height : Int
deriving DecidableEq, Repr

/-- Model of the external selenium `Service` object, constructed from
the webdriver executable path. -/
structure Service where
  executable_path : String
deriving DecidableEq, Repr

/-- Model of the external local `webdriver.Firefox` control handle,
recording the options and service it was constructed from. -/
structure FirefoxDriver where
  options : Options
  service : Service
deriving DecidableEq, Repr

/-- State of a `FirefoxWebDriver` controller (src class
`FirefoxWebDriver`, attribute list of lines 135-156): the stored
configuration fields, the two assemblers, the window rectangle, the two
timeout values, and the mutable service/options/driver handles. -/
structure FirefoxWebDriver where
  webdriver_path : String
  webdriver_dir : Option String
  debugging_port : Option Int
  headless_mode : Bool
  mute_audio : Bool
  user_agent : Option (List String)
  proxy : Option ProxyArg
  webdriver_start_args : BrowserStartArgs
  webdriver_options_manager : FirefoxOptionsManager
  window_rect : WindowRect
  base_implicitly_wait : Int
  base_page_load_timeout : Int
  webdriver_service : Option Service
  webdriver_options : Option Options
  driver : Option FirefoxDriver
deriving DecidableEq, Repr

/-- External calls performed by `FirefoxWebDriver.create_driver`, in
trace order. -/
inductive LEvent where
  | serviceConstruct (executable_path : String)
  | takeOptions (options : Options)
  | firefoxConstruct (options : Options) (service : Service)
  | setWindowPosition (x y : Int)
  | setWindowSize (width height : Int)
  | implicitlyWait (seconds : Int)
  | setPageLoadTimeout (seconds : Int)
deriving DecidableEq, Repr

/-- `FirefoxWebDriver.create_driver` (src lines 204-221): constructs the
service from the stored webdriver path, takes the options object from
the options manager, constructs the driver from {options, service},
sets window position, sets window size, applies the implicit wait and
the page-load timeout. Returns the updated state and the trace of
external calls. -/
def FirefoxWebDriver.create_driver (s : FirefoxWebDriver) : FirefoxWebDriver × List LEvent :=
  let service : Service := { executable_path := s.webdriver_path }
  let opts := s.webdriver_options_manager.options
  let drv : FirefoxDriver := { options := opts, service := service }
  ({ s with
      webdriver_service := some service
      webdriver_options := some opts
      driver := some drv },
   [LEvent.serviceConstruct s.webdriver_path,
    LEvent.takeOptions opts,
    LEvent.firefoxConstruct opts service,
    LEvent.setWindowPosition s.window_rect.x s.window_rect.y,
    LEvent.setWindowSize s.window_rect.width s.window_rect.height,
    LEvent.implicitlyWait s.base_implicitly_wait,
    LEvent.setPageLoadTimeout s.base_page_load_timeout])

/-- `FirefoxWebDriver.renew_bas_and_bom` (src lines 223-234):
reconstructs the start-args assembler as
`FirefoxStartArgs(self.webdriver_dir, self.debugging_port,
self.headless_mode, self.mute_audio)` and the options manager as
`FirefoxOptionsManager(self.debugging_port, self.user_agent,
self.proxy)`. -/
def FirefoxWebDriver.renew_bas_and_bom (s : FirefoxWebDriver) (ctr : Nat) :
    FirefoxWebDriver × Nat :=
  let bas := FirefoxStartArgs.init s.webdriver_dir s.debugging_port s.headless_mode s.mute_audio
  let bom := FirefoxOptionsManager.init s.debugging_port s.user_agent s.proxy ctr
  ({ s with webdriver_start_args := bas, webdriver_options_manager := bom.1 }, bom.2)

/-- Model of the external remote control handle: its mutable
session-identifier field. -/
structure RemoteDriver where
  session_id : String
deriving DecidableEq, Repr

/-- State of a `FirefoxRemoteWebDriver` controller (src class
`FirefoxRemoteWebDriver`, attribute list of lines 241-247). The two
timeout fields come from the `EmptyWebDriver` base constructor. -/
structure FirefoxRemoteWebDriver where
  command_executor : String
  session_id : String
  webdriver_options_manager : FirefoxOptionsManager
  base_implicitly_wait : Int
  base_page_load_timeout : Int
  driver : Option RemoteDriver
deriving DecidableEq, Repr

/-- `FirefoxRemoteWebDriver.__init__` (src lines 254-280). -/
def FirefoxRemoteWebDriver.init (command_executor : String) (session_id : String)
    (webdriver_options_manager : FirefoxOptionsManager)
    (implicitly_wait : Int) (page_load_timeout : Int) : FirefoxRemoteWebDriver :=
  { command_executor := command_executor
    session_id := session_id
    webdriver_options_manager := webdriver_options_manager
    base_implicitly_wait := implicitly_wait
    base_page_load_timeout := page_load_timeout
    driver := none }

/-- Commands issued by `FirefoxRemoteWebDriver.create_driver`, in trace
order. `remoteConnect` is the external `webdriver.Remote(...)` call,
which creates the throwaway session; `rebindSession` is the assignment
to the handle's session-identifier field. -/
inductive REvent where
  | remoteConnect (command_executor : String) (throwaway_session : String) (options : Options)
  | closeWindow (session : String)
  | rebindSession (oldSession newSession : String)
  | switchToWindow (session : String)
  | implicitlyWait (seconds : Int)
  | setPageLoadTimeout (seconds : Int)
deriving DecidableEq, Repr

/-- Discriminator for close-window commands in a remote trace. -/
def REvent.isCloseWindow : REvent → Bool
  | .closeWindow _ => true
  | _ => false

/-- Discriminator for the session-rebinding step in a remote trace. -/
def REvent.isRebindSession : REvent → Bool
  | .rebindSession _ _ => true
  | _ => false

/-- Discriminator for window switches in a remote trace. -/
def REvent.isSwitchToWindow : REvent → Bool
  | .switchToWindow _ => true
  | _ => false

/-- `FirefoxRemoteWebDriver.create_driver` (src lines 282-311). A
non-`none` argument overwrites the corresponding stored field; then
`webdriver.Remote(command_executor=self.command_executor,
options=self.webdriver_options_manager.options)` creates a handle bound
to a fresh throwaway session (`throwaway_session`, assigned by the
server); then `self.close_window()`; then `self.driver.session_id =
self.session_id`; then `self.switch_to_window()`; then the implicit
wait and the page-load timeout are applied.

The bodies of `EmptyWebDriver.close_window` and
`EmptyWebDriver.switch_to_window` (BaseDriver.py, not under src/) are
modelled from the spec: `close_window` commands the handle's current
session to close its window, and `switch_to_window` switches focus to
the open window of the handle's current session. -/
def FirefoxRemoteWebDriver.create_driver (s : FirefoxRemoteWebDriver)
    (throwaway_session : String) (command_executor : Option String)
    (session_id : Option String) : FirefoxRemoteWebDriver × List REvent :=
  let s1 := match command_executor with
    | some ce => { s with command_executor := ce }
    | none => s
  let s2 := match session_id with
    | some sid => { s1 with session_id := sid }
    | none => s1
  let d0 : RemoteDriver := { session_id := throwaway_session }
  let d1 : RemoteDriver := { d0 with session_id := s2.session_id }
  ({ s2 with driver := some d1 },
   [REvent.remoteConnect s2.command_executor throwaway_session
      s2.webdriver_options_manager.options,
    REvent.closeWindow d0.session_id,
    REvent.rebindSession d0.session_id s2.session_id,
    REvent.switchToWindow d1.session_id,
    REvent.implicitlyWait s2.base_implicitly_wait,
    REvent.setPageLoadTimeout s2.base_page_load_timeout])

/-- A Python runtime object: an allocation id modelling object identity,
plus the object's value. Used where the spec speaks about object
identity of assembler objects. -/
structure Obj (α : Type) where
  oid : Nat
  val : α
deriving DecidableEq, Repr

/-- The default value of the `webdriver_start_args` parameter of
`FirefoxWebDriver.__init__` (src line 167): the expression
`FirefoxStartArgs()` is evaluated once, when the `def` statement is
executed, producing a single object reused by every call that omits the
argument. -/
def firefoxWebDriverDefaultStartArgs : Obj BrowserStartArgs :=
  { oid := 0, val := FirefoxStartArgs.init none none false false }

/-- The default value of the `webdriver_options_manager` parameter of
`FirefoxWebDriver.__init__` (src line 168): `FirefoxOptionsManager()`
evaluated once at definition time (its inner options object is the
module-load allocation 1). -/
def firefoxWebDriverDefaultOptionsManager : Obj FirefoxOptionsManager :=
  { oid := 2, val := (FirefoxOptionsManager.init none none none 1).1 }

/-- The default value of the `webdriver_options_manager` parameter of
`FirefoxRemoteWebDriver.__init__` (src line 258): `FirefoxOptionsManager()`
evaluated once at definition time (its inner options object is the
module-load allocation 3). -/
def firefoxRemoteWebDriverDefaultOptionsManager : Obj FirefoxOptionsManager :=
  { oid := 4, val := (FirefoxOptionsManager.init none none none 3).1 }

/-- The assembler objects a `FirefoxWebDriver.__init__` call (src lines
164-172) binds for a given argument list: a supplied argument is used as
passed, an omitted one falls back to the definition-time default
object. -/
def FirefoxWebDriver.initAssemblers (_webdriver_path : String)
    (webdriver_start_args : Option (Obj BrowserStartArgs))
    (webdriver_options_manager : Option (Obj FirefoxOptionsManager)) :
    Obj BrowserStartArgs × Obj FirefoxOptionsManager :=
  (webdriver_start_args.getD firefoxWebDriverDefaultStartArgs,
   webdriver_options_manager.getD firefoxWebDriverDefaultOptionsManager)

/-- The options-manager object a `FirefoxRemoteWebDriver.__init__` call
(src lines 254-280) binds for a given argument list. -/
def FirefoxRemoteWebDriver.initOptionsManager (_command_executor _session_id : String)
    (webdriver_options_manager : Option (Obj FirefoxOptionsManager)) :
    Obj FirefoxOptionsManager :=
  webdriver_options_manager.getD firefoxRemoteWebDriverDefaultOptionsManager

theorem pyFormatD_remote_debugging_port (n : Int) :
    pyFormatD "--remote-debugging-port %d" n = "--remote-debugging-port " ++ toString n := by
  apply strExt
  rw [dataAppend]
  show "--remote-debugging-port ".data ++ ((toString n).data ++ []) = _
  simp

theorem pyFormatS_profile (d : String) :
    pyFormatS "--profile \"%s\"" d = "--profile \"" ++ d ++ "\"" := by
  apply strExt
  rw [dataAppend, dataAppend]
  show "--profile \"".data ++ (d.data ++ ['"']) = _
  simp

/-- Claim C6: for a start-args configuration with every optional field
present (profile dir set, debugging port set, headless true, mute-audio
true), the assembled start command is exactly the executable path, the
debugging-port fragment, the profile-dir fragment, the headless
fragment and the mute-audio fragment, in that order, joined by single
spaces, each rendered via its fixed per-field template. -/
theorem firefoxStartArgs_all_present_fragment_order (dir : String) (port : Int) :
    (FirefoxStartArgs.init (some dir) (some port) true true).start_command =
      "firefox.exe --remote-debugging-port " ++ toString port ++ " --profile \"" ++ dir ++
        "\" --headless --mute-audio" := by
  show joinSpace ["firefox.exe",
      pyFormatD "--remote-debugging-port %d" port,
      pyFormatS "--profile \"%s\"" dir,
      "--headless", "--mute-audio"] = _
  rw [pyFormatD_remote_debugging_port, pyFormatS_profile]
  apply strExt
  simp only [joinSpace, dataAppend, List.append_assoc]
  rfl

/-- Claim C7: for a start-args configuration with every optional field
absent or false, the assembled start command is exactly the executable
path, with no trailing separators and no residue from the skipped
fragments; in particular the Firefox instance yields `"firefox.exe"`. -/
theorem firefoxStartArgs_all_absent_path_only
    (nm dpc wdc hmc mac : String) :
    (BrowserStartArgs.mk nm dpc wdc hmc mac none none false false).start_command = nm ∧
    (FirefoxStartArgs.init none none false false).start_command = "firefox.exe" := by
  exact ⟨rfl, rfl⟩

/-- Claim C8: a user agent supplied as the list `["My", "User", "Agent"]`
is joined with single spaces into `"My User Agent"` before substitution
into the template `"user-agent=%s"`, and a proxy supplied as a list is
likewise joined before substitution into `"--proxy-server=%s"`. -/
theorem firefoxOptionsManager_joins_before_substitution :
    ((FirefoxOptionsManager.init none (some ["My", "User", "Agent"]) none 0).1).options.arguments =
      ["user-agent=My User Agent"] ∧
    ((FirefoxOptionsManager.init none none
        (some (ProxyArg.list ["127.0.0.1:8080", "127.0.0.2:8080"])) 0).1).options.arguments =
      ["--proxy-server=127.0.0.1:8080 127.0.0.2:8080"] := by
  exact ⟨rfl, rfl⟩

/-- Claim C5: `renew_webdriver_options` returns a freshly allocated,
empty options object: its id differs from the stored options object's
id (it is a new object, distinct from the previously stored one) and it
carries no arguments. -/
theorem renew_webdriver_options_returns_fresh_empty (m : FirefoxOptionsManager) (ctr : Nat)
    (h : m.options.oid < ctr) :
    (m.renew_webdriver_options ctr).1.oid ≠ m.options.oid ∧
    (m.renew_webdriver_options ctr).1.arguments = [] := by
  refine ⟨?_, rfl⟩
  show ctr ≠ m.options.oid
  omega

theorem renew_webdriver_options_returns_fresh_empty_witness :
    (FirefoxOptionsManager.init none none none 0).1.options.oid < 1 ∧
    (((FirefoxOptionsManager.init none none none 0).1.renew_webdriver_options 1).1.oid ≠
        (FirefoxOptionsManager.init none none none 0).1.options.oid ∧
      ((FirefoxOptionsManager.init none none none 0).1.renew_webdriver_options 1).1.arguments = []) :=
  ⟨by decide,
   renew_webdriver_options_returns_fresh_empty (FirefoxOptionsManager.init none none none 0).1 1
     (by decide)⟩

/-- Claim C3 counterexample: applying `hide_automation` twice in a row
does not yield the same arguments on the options handle as applying it
once — on a freshly built manager the two argument lists differ and
`"--no-first-run"` occurs twice after double application. -/
theorem hide_automation_not_idempotent_counterexample :
    ¬ ((FirefoxOptionsManager.init none none none 0).1.hide_automation.hide_automation.options.arguments =
        (FirefoxOptionsManager.init none none none 0).1.hide_automation.options.arguments) ∧
    ((FirefoxOptionsManager.init none none none 0).1.hide_automation.hide_automation.options.arguments.count
        "--no-first-run" = 2) := by
  exact ⟨by decide, by decide⟩

/-- Claim C3 as amended: `add_argument` does not deduplicate, so a
second `hide_automation` appends the four fixed automation-hiding
arguments again — the argument list after two applications is the list
after one application followed by those four entries once more
(duplicated entries), while the set of distinct arguments on the handle
is unchanged. -/
theorem hide_automation_twice_appends_again (m : FirefoxOptionsManager) :
    m.hide_automation.hide_automation.options.arguments =
      m.hide_automation.options.arguments ++ hideAutomationArguments ∧
    m.hide_automation.hide_automation.options.arguments.toFinset =
      m.hide_automation.options.arguments.toFinset := by
  constructor
  · simp [FirefoxOptionsManager.hide_automation, Options.add_argument, hideAutomationArguments]
  · apply Finset.ext
    intro x
    simp [FirefoxOptionsManager.hide_automation, Options.add_argument]

/-- Claim C9: `renew_bas_and_bom` reconstructs both assemblers from the
controller's current stored fields (`webdriver_dir`, `debugging_port`,
`headless_mode`, `mute_audio`, `user_agent`, `proxy`), and calling it
twice in a row — the stored fields are not changed in between —
produces the same start-args assembler, hence identical assembled
start-command output, and an options manager with identical
arguments. -/
theorem renew_bas_and_bom_from_stored_fields_idem (s : FirefoxWebDriver) (ctr : Nat) :
    (s.renew_bas_and_bom ctr).1.webdriver_start_args =
      FirefoxStartArgs.init s.webdriver_dir s.debugging_port s.headless_mode s.mute_audio ∧
    (s.renew_bas_and_bom ctr).1.webdriver_options_manager =
      (FirefoxOptionsManager.init s.debugging_port s.user_agent s.proxy ctr).1 ∧
    ((s.renew_bas_and_bom ctr).1.renew_bas_and_bom (s.renew_bas_and_bom ctr).2).1.webdriver_start_args =
      (s.renew_bas_and_bom ctr).1.webdriver_start_args ∧
    ((s.renew_bas_and_bom ctr).1.renew_bas_and_bom
        (s.renew_bas_and_bom ctr).2).1.webdriver_start_args.start_command =
      (s.renew_bas_and_bom ctr).1.webdriver_start_args.start_command ∧
    ((s.renew_bas_and_bom ctr).1.renew_bas_and_bom
        (s.renew_bas_and_bom ctr).2).1.webdriver_options_manager.options.arguments =
      (s.renew_bas_and_bom ctr).1.webdriver_options_manager.options.arguments := by
  refine ⟨rfl, rfl, rfl, rfl, ?_⟩
  show (FirefoxOptionsManager.init s.debugging_port s.user_agent s.proxy _).1.options.arguments =
    (FirefoxOptionsManager.init s.debugging_port s.user_agent s.proxy ctr).1.options.arguments
  cases s.debugging_port <;> cases s.user_agent <;> cases s.proxy <;> rfl

/-- Claim C10: `FirefoxWebDriver.create_driver` performs its external
calls in the fixed order service construction from the stored webdriver
path, taking the options handle from the options manager, driver
construction from {options, service}, set window position, set window
size, implicit wait, page-load timeout; it stores the new service,
options and driver handles and leaves every other stored field
(path, configuration fields, assemblers, window rectangle, timeout
values) unchanged. -/
theorem firefoxWebDriver_create_driver_order_and_frame (s : FirefoxWebDriver) :
    s.create_driver.2 =
      [LEvent.serviceConstruct s.webdriver_path,
       LEvent.takeOptions s.webdriver_options_manager.options,
       LEvent.firefoxConstruct s.webdriver_options_manager.options
         { executable_path := s.webdriver_path },
       LEvent.setWindowPosition s.window_rect.x s.window_rect.y,
       LEvent.setWindowSize s.window_rect.width s.window_rect.height,
       LEvent.implicitlyWait s.base_implicitly_wait,
       LEvent.setPageLoadTimeout s.base_page_load_timeout] ∧
    s.create_driver.1.webdriver_service = some { executable_path := s.webdriver_path } ∧
    s.create_driver.1.webdriver_options = some s.webdriver_options_manager.options ∧
    s.create_driver.1.driver =
      some { options := s.webdriver_options_manager.options,
             service := { executable_path := s.webdriver_path } } ∧
    s.create_driver.1.webdriver_path = s.webdriver_path ∧
    s.create_driver.1.webdriver_dir = s.webdriver_dir ∧
    s.create_driver.1.debugging_port = s.debugging_port ∧
    s.create_driver.1.headless_mode = s.headless_mode ∧
    s.create_driver.1.mute_audio = s.mute_audio ∧
    s.create_driver.1.user_agent = s.user_agent ∧
    s.create_driver.1.proxy = s.proxy ∧
    s.create_driver.1.webdriver_start_args = s.webdriver_start_args ∧
    s.create_driver.1.webdriver_options_manager = s.webdriver_options_manager ∧
    s.create_driver.1.window_rect = s.window_rect ∧
    s.create_driver.1.base_implicitly_wait = s.base_implicitly_wait ∧
    s.create_driver.1.base_page_load_timeout = s.base_page_load_timeout := by
  exact ⟨rfl, rfl, rfl, rfl, rfl, rfl, rfl, rfl, rfl, rfl, rfl, rfl, rfl, rfl, rfl, rfl⟩

/-- Claim C1: for every stored command executor and session id,
attaching with `FirefoxRemoteWebDriver.create_driver` issues exactly
one close-window command, and it targets the freshly created throwaway
session; the close strictly precedes the rebinding of the handle's
session-identifier field to the stored session id; the only window
switch comes strictly after that rebinding (so no switch precedes it);
and the handle ends up bound to the stored session id. -/
theorem firefoxRemote_create_driver_close_before_rebind (s : FirefoxRemoteWebDriver)
    (tw : String) :
    (s.create_driver tw none none).2.filter REvent.isCloseWindow = [REvent.closeWindow tw] ∧
    (s.create_driver tw none none).2.filter REvent.isRebindSession =
      [REvent.rebindSession tw s.session_id] ∧
    (s.create_driver tw none none).2.findIdx REvent.isCloseWindow <
      (s.create_driver tw none none).2.findIdx REvent.isRebindSession ∧
    (s.create_driver tw none none).2.findIdx REvent.isRebindSession <
      (s.create_driver tw none none).2.findIdx REvent.isSwitchToWindow ∧
    (s.create_driver tw none none).2.filter REvent.isSwitchToWindow =
      [REvent.switchToWindow s.session_id] ∧
    (s.create_driver tw none none).1.driver = some { session_id := s.session_id } := by
  refine ⟨rfl, rfl, ?_, ?_, rfl, rfl⟩
  · show (1 : Nat) < 2
    decide
  · show (2 : Nat) < 3
    decide

/-- Claim C2: a non-`none` argument to `create_driver` overwrites the
corresponding stored field before attachment (the remote connect uses
the updated executor and the rebinding uses the updated session id),
while a `none` argument reuses the previously stored value; in
particular, re-attaching with only `session_id = "xyz789"` after an
attachment to `"abc123"` rebinds the handle to `"xyz789"` and leaves
the stored command executor unchanged. -/
theorem firefoxRemote_create_driver_argument_override (s : FirefoxRemoteWebDriver)
    (tw tw2 : String) (oce osid : Option String) :
    (s.create_driver tw oce osid).1.command_executor = oce.getD s.command_executor ∧
    (s.create_driver tw oce osid).1.session_id = osid.getD s.session_id ∧
    (s.create_driver tw oce osid).2.head? =
      some (REvent.remoteConnect (oce.getD s.command_executor) tw
        s.webdriver_options_manager.options) ∧
    (s.create_driver tw oce osid).1.driver = some { session_id := osid.getD s.session_id } ∧
    ((s.create_driver tw none (some "abc123")).1.create_driver tw2 none
        (some "xyz789")).1.session_id = "xyz789" ∧
    ((s.create_driver tw none (some "abc123")).1.create_driver tw2 none
        (some "xyz789")).1.command_executor = s.command_executor ∧
    ((s.create_driver tw none (some "abc123")).1.create_driver tw2 none
        (some "xyz789")).1.driver = some { session_id := "xyz789" } := by
  cases oce <;> cases osid <;> exact ⟨rfl, rfl, rfl, rfl, rfl, rfl, rfl⟩

/-- Claim C4 counterexample: two `FirefoxWebDriver` constructions that
both omit the assembler arguments receive the very same assembler
objects (equal allocation ids), not distinct ones — the definition-time
defaults are shared — and likewise for `FirefoxRemoteWebDriver`. -/
theorem default_assemblers_shared_counterexample :
    (FirefoxWebDriver.initAssemblers "path-a" none none).1.oid =
      (FirefoxWebDriver.initAssemblers "path-b" none none).1.oid ∧
    (FirefoxWebDriver.initAssemblers "path-a" none none).2.oid =
      (FirefoxWebDriver.initAssemblers "path-b" none none).2.oid ∧
    (FirefoxWebDriver.initAssemblers "path-a" none none) =
      (FirefoxWebDriver.initAssemblers "path-b" none none) ∧
    FirefoxRemoteWebDriver.initOptionsManager "http://127.0.0.1:4444" "abc123" none =
      FirefoxRemoteWebDriver.initOptionsManager "http://127.0.0.1:4445" "xyz789" none := by
  exact ⟨rfl, rfl, rfl, rfl⟩

/-- Claim C4 as amended: the default assembler expressions in the
constructor signatures are evaluated once, at definition time, so every
construction that omits them receives the same shared default object
(never a fresh one); distinct assembler objects are obtained only by
passing explicitly constructed ones. -/
theorem default_assemblers_shared (p q : String) (a : Obj BrowserStartArgs)
    (b : Obj FirefoxOptionsManager) :
    FirefoxWebDriver.initAssemblers p none none = FirefoxWebDriver.initAssemblers q none none ∧
    FirefoxWebDriver.initAssemblers p none none =
      (firefoxWebDriverDefaultStartArgs, firefoxWebDriverDefaultOptionsManager) ∧
    FirefoxWebDriver.initAssemblers p (some a) (some b) = (a, b) ∧
    FirefoxRemoteWebDriver.initOptionsManager p q none =
      firefoxRemoteWebDriverDefaultOptionsManager ∧
    FirefoxRemoteWebDriver.initOptionsManager p q (some b) = b := by
  exact ⟨rfl, rfl, rfl, rfl, rfl⟩

end PyWebScraping
